import Mathlib

/-!
Shallow embedding of the core logic of the banking demo application
(src/server/routers/account.ts, src/server/routers/auth.ts, and the tRPC
context logic), together with theorems settling the specification claims.

Modelling conventions:
  * JavaScript numbers are modelled as exact rationals (ℚ); `Math.round`
    becomes `jsRound` (round half toward +∞, which is what `Math.round`
    does, and coincides with round-half-up on the positive values used here).
  * Database tables are lists of rows; `db.select().where(p).get()` is
    `List.find?`, `db.delete().where(p)` is `List.filter` with the negated
    predicate, inserts append to the list.  Auto-increment ids are modelled
    with an explicit `nextTxnId` counter.
  * `jwt.verify` is an oracle parameter `verify : String → Option ℕ`
    returning the decoded userId on a validly signed token, `none` otherwise.
  * Timestamps are integer milliseconds since the epoch.
-/

/-- JavaScript `Math.round`: round half toward +∞. -/
def jsRound (q : ℚ) : ℤ := ⌊q + 1/2⌋

/-- `Math.round(q * 100) / 100` — round to two decimal places, as performed
by `fundAccount` on the funding amount and on the updated balance. -/
def round2 (q : ℚ) : ℚ := (jsRound (q * 100) : ℚ) / 100

/-- The doubled-digit adjustment of the Luhn loop: `digit *= 2; if (digit > 9) digit -= 9`. -/
def luhnDouble (d : ℕ) : ℕ := if d * 2 > 9 then d * 2 - 9 else d * 2

/-- The loop of `isValidLuhn` (account.ts lines 17-32): the list argument is
the digit sequence already reversed (the source iterates from the last
character down to index 0), `isEven` starts `false` and toggles each step. -/
def luhnSumAux : List ℕ → Bool → ℕ
  | [], _ => 0
  | d :: rest, isEven => (if isEven then luhnDouble d else d) + luhnSumAux rest (!isEven)

/-- `isValidLuhn` from account.ts: sum the weighted digits right-to-left and
test the sum against 0 mod 10.  The card number is represented as its list
of decimal digits. -/
def isValidLuhn (card : List ℕ) : Bool := luhnSumAux card.reverse false % 10 == 0

/-- Modelled from the spec: the Luhn checksum, described as "starting from
the rightmost digit, double every second digit moving left, subtract 9 from
any result above 9, sum all digits", taken mod 10.  Digits are indexed by
their distance from the right; those at odd distance are doubled. -/
def luhnWeighted : ℕ → List ℕ → ℕ
  | _, [] => 0
  | i, d :: rest => (if i % 2 = 1 then (if d * 2 > 9 then d * 2 - 9 else d * 2) else d) + luhnWeighted (i + 1) rest

/-- Modelled from the spec: the checksum value whose vanishing defines Luhn validity. -/
def luhnChecksum (card : List ℕ) : ℕ := luhnWeighted 0 card.reverse % 10

lemma luhnSumAux_eq_weighted (l : List ℕ) :
    ∀ (b : Bool) (i : ℕ), b = decide (i % 2 = 1) → luhnSumAux l b = luhnWeighted i l := by
  induction l with
  | nil => intro b i _; rfl
  | cons d rest ih =>
    intro b i hb
    have hnext : (!b) = decide ((i + 1) % 2 = 1) := by
      subst hb
      rcases Nat.mod_two_eq_zero_or_one i with h | h <;>
        simp [Nat.add_mod, h]
    have hd : (if b then luhnDouble d else d)
        = (if i % 2 = 1 then (if d * 2 > 9 then d * 2 - 9 else d * 2) else d) := by
      subst hb
      rcases Nat.mod_two_eq_zero_or_one i with h | h <;> simp [h, luhnDouble]
    show (if b then luhnDouble d else d) + luhnSumAux rest (!b)
        = (if i % 2 = 1 then (if d * 2 > 9 then d * 2 - 9 else d * 2) else d) + luhnWeighted (i + 1) rest
    rw [hd, ih (!b) (i + 1) hnext]

/-- **C2.** For every card number (as a sequence of decimal digits),
`isValidLuhn` returns `true` exactly when the Luhn checksum — rightmost
digit not doubled, every second digit moving left doubled with 9 subtracted
from results above 9, all digits summed mod 10 — is zero. -/
theorem C2_isValidLuhn_iff_checksum_zero (card : List ℕ) :
    isValidLuhn card = true ↔ luhnChecksum card = 0 := by
  unfold isValidLuhn luhnChecksum
  rw [luhnSumAux_eq_weighted card.reverse false 0 (by decide)]
  simp

/-- A calendar date, as the (year, month, day) components JavaScript `Date`
exposes.  The age computation in auth.ts only ever subtracts components, so
it is insensitive to whether months are 0-indexed (as `getMonth()` is) or
1-indexed; concrete dates below use 1-indexed months. -/
structure SimpleDate where
  year : ℤ
  month : ℤ
  day : ℤ
deriving DecidableEq

/-- The age computation of the signup date-of-birth refinement
(auth.ts lines 78-85): year difference, decremented when the birthday has
not yet occurred this year. -/
def computeAge (today dob : SimpleDate) : ℤ :=
  let age := today.year - dob.year
  let monthDiff := today.month - dob.month
  if monthDiff < 0 ∨ (monthDiff = 0 ∧ today.day < dob.day) then age - 1 else age

/-- The acceptance predicate of the refinement: `age >= 18`. -/
def ageRefine (today dob : SimpleDate) : Bool := decide (18 ≤ computeAge today dob)

/-- Modelled from the spec: calendar order on dates (year, then month, then
day).  "Calendar-accurate age ≥ 18" means the 18th-birthday date is on or
before today in this order. -/
def dateLe (a b : SimpleDate) : Prop :=
  a.year < b.year ∨ (a.year = b.year ∧ (a.month < b.month ∨ (a.month = b.month ∧ a.day ≤ b.day)))

/-- Days since the epoch of the proleptic Gregorian calendar (Rata Die):
day 1 is 0001-01-01.  Used only to relate concrete dates by an exact number
of days; valid for positive years with 1-indexed months. -/
def rataDie (y m d : ℤ) : ℤ :=
  365 * (y - 1) + (y - 1) / 4 - (y - 1) / 100 + (y - 1) / 400
    + (367 * m - 362) / 12
    - (if m ≤ 2 then 0 else if (y % 4 = 0 ∧ y % 100 ≠ 0) ∨ y % 400 = 0 then 1 else 2)
    + d

/-- **C9.** The signup age check is calendar-accurate: it accepts exactly
when the date 18 years after the date of birth (same month and day) is on
or before today.  Consequently a date of birth exactly 18 years before
today (same month/day) passes, while one exactly 17 years and 364 days
before today fails — instantiated at today = 2026-10-11, where 364 days
before 2009-10-11 is 2008-10-12, which is rejected. -/
theorem C9_age_validation :
    (∀ today dob : SimpleDate,
        ageRefine today dob = true ↔ dateLe ⟨dob.year + 18, dob.month, dob.day⟩ today)
    ∧ (∀ t : SimpleDate, ageRefine t ⟨t.year - 18, t.month, t.day⟩ = true)
    ∧ (ageRefine ⟨2026, 10, 11⟩ ⟨2008, 10, 12⟩ = false
        ∧ rataDie 2009 10 11 - rataDie 2008 10 12 = 364
        ∧ (2026 : ℤ) - 17 = 2009) := by
  refine ⟨?_, ?_, by decide, by decide, by decide⟩
  · intro today dob
    simp only [ageRefine, computeAge, dateLe, decide_eq_true_eq]
    split <;> omega
  · intro t
    simp only [ageRefine, computeAge, decide_eq_true_eq]
    split <;> omega

/-- A user row (only the field the modelled operations read). -/
structure User where
  id : ℕ
deriving DecidableEq

/-- An account row (fields read or written by the modelled operations). -/
structure Account where
  id : ℕ
  userId : ℕ
  accountType : String
  balance : ℚ
  status : String
deriving DecidableEq

/-- A transaction row.  `createdAt`/`processedAt` timestamps are not
modelled; creation order is the list order (later rows are newer). -/
structure Txn where
  id : ℕ
  accountId : ℕ
  txType : String
  amount : ℚ
  status : String
deriving DecidableEq

/-- A session row. -/
structure Session where
  userId : ℕ
  token : String
  expiresAt : ℤ
deriving DecidableEq

/-- The relational store: one list per table, plus the auto-increment
counter for transaction ids. -/
structure Db where
  users : List User
  accounts : List Account
  transactions : List Txn
  sessions : List Session
  nextTxnId : ℕ
deriving DecidableEq

/-- The funding-source type tag of the `fundAccount` input. -/
inductive FundType where
  | card
  | bank
deriving DecidableEq

/-- The `fundingSource` object of the `fundAccount` input. -/
structure FundingSource where
  srcType : FundType
  accountNumber : String
  routingNumber : Option String
deriving DecidableEq

/-- The `fundAccount` input object. -/
structure FundInput where
  accountId : ℕ
  amount : ℚ
  fundingSource : FundingSource
deriving DecidableEq

/-- The tRPC error codes used by the routers (plus FORBIDDEN, which the
source never raises). -/
inductive TrpcCode where
  | BAD_REQUEST
  | UNAUTHORIZED
  | NOT_FOUND
  | CONFLICT
  | FORBIDDEN
  | INTERNAL_SERVER_ERROR
deriving DecidableEq

/-- A thrown `TRPCError`. -/
structure TrpcError where
  code : TrpcCode
  message : String
deriving DecidableEq

/-- The routing-number test of the bank branch (account.ts lines 119-126):
present and matching `/^\d{9}$/`. -/
def validRouting : Option String → Bool
  | none => false
  | some r => r.length == 9 && r.data.all Char.isDigit

/-- Numeric value of a digit character, as `parseInt` produces for `0`-`9`. -/
def charDigit (c : Char) : ℕ := c.toNat - 48

/-- Digit sequence of a card-number string. -/
def strDigits (s : String) : List ℕ := s.data.map charDigit

/-- `/^4\d{12}(\d{3})?$/` — Visa: leading 4, total length 13 or 16. -/
def visaShape : List Char → Bool
  | '4' :: rest => (rest.length == 12 || rest.length == 15) && rest.all Char.isDigit
  | _ => false

/-- `/^5[1-5]\d{14}$/` — Mastercard: 5 then 1-5 then 14 digits. -/
def mastercardShape : List Char → Bool
  | '5' :: c2 :: rest => ('1' ≤ c2 && c2 ≤ '5') && (rest.length == 14 && rest.all Char.isDigit)
  | _ => false

/-- `/^3[47]\d{13}$/` — Amex: 3 then 4 or 7 then 13 digits. -/
def amexShape : List Char → Bool
  | '3' :: c2 :: rest => (c2 == '4' || c2 == '7') && (rest.length == 13 && rest.all Char.isDigit)
  | _ => false

/-- `/^6(?:011|5\d{2})\d{12}$/` — Discover: 6011 or 65 plus two digits, then 12 digits. -/
def discoverShape : List Char → Bool
  | '6' :: '0' :: '1' :: '1' :: rest => rest.length == 12 && rest.all Char.isDigit
  | '6' :: '5' :: c3 :: c4 :: rest => (c3.isDigit && c4.isDigit) && (rest.length == 12 && rest.all Char.isDigit)
  | _ => false

/-- `detectCardType` from account.ts lines 35-41: the first matching
network's name, `null` for an unrecognized number. -/
def detectCardType (s : String) : Option String :=
  if visaShape s.data then some "visa"
  else if mastercardShape s.data then some "mastercard"
  else if amexShape s.data then some "amex"
  else if discoverShape s.data then some "discover"
  else none

/-- The funding-source validation of `fundAccount` (account.ts lines
118-143): the routing check runs only for bank sources, the network check
runs before the Luhn check for card sources; the first failure wins. -/
def sourceError (src : FundingSource) : Option TrpcError :=
  match src.srcType with
  | .bank =>
    if validRouting src.routingNumber then none
    else some ⟨.BAD_REQUEST, "A valid 9-digit routing number is required for bank transfers"⟩
  | .card =>
    match detectCardType src.accountNumber with
    | none => some ⟨.BAD_REQUEST, "Invalid card number. We accept Visa, Mastercard, Amex, and Discover."⟩
    | some _ =>
      if isValidLuhn (strDigits src.accountNumber) then none
      else some ⟨.BAD_REQUEST, "Invalid card number. Please check and try again."⟩

/-- The `ORDER BY id DESC LIMIT 1` re-read of `fundAccount` (account.ts
lines 171-177): the transaction row for the account with the largest id. -/
def newestTxn (txns : List Txn) (accId : ℕ) : Option Txn :=
  (txns.filter (fun t => t.accountId == accId)).argmax Txn.id

/-- `fundAccount` (account.ts lines 100-203), including the zod bounds on
the amount and the non-empty check on the funding account number, which run
before the handler body.  The pair's second component is the store after
the call; every throw happens before any mutation, so each error branch
returns the store unchanged. -/
def fundAccount (db : Db) (uid : ℕ) (input : FundInput) : Except TrpcError (Option Txn × ℚ) × Db :=
  if input.amount < 1/100 then (.error ⟨.BAD_REQUEST, "Amount must be at least $0.01"⟩, db)
  else if 10000 < input.amount then (.error ⟨.BAD_REQUEST, "Amount cannot exceed $10,000"⟩, db)
  else if input.fundingSource.accountNumber = "" then
    (.error ⟨.BAD_REQUEST, "Account/card number is required"⟩, db)
  else match sourceError input.fundingSource with
  | some e => (.error e, db)
  | none =>
    let amount := round2 input.amount
    match db.accounts.find? (fun a => a.id == input.accountId && a.userId == uid) with
    | none => (.error ⟨.NOT_FOUND, "Account not found"⟩, db)
    | some account =>
      if account.status ≠ "active" then (.error ⟨.BAD_REQUEST, "Account is not active"⟩, db)
      else
        let newTxn : Txn :=
          { id := db.nextTxnId, accountId := input.accountId, txType := "deposit"
            amount := amount, status := "completed" }
        let txns := db.transactions ++ [newTxn]
        let transaction := newestTxn txns input.accountId
        let newBalance := round2 (account.balance + amount)
        let accounts := db.accounts.map
          (fun a => if a.id == input.accountId then { a with balance := newBalance } else a)
        (.ok (transaction, newBalance),
          { db with transactions := txns, accounts := accounts, nextTxnId := db.nextTxnId + 1 })

/-- `getTransactions` (account.ts lines 205-240): ownership-checked lookup,
then the account's transactions newest-first (creation order reversed),
each enriched with the account's type. -/
def getTransactions (db : Db) (uid : ℕ) (accId : ℕ) : Except TrpcError (List (Txn × String)) :=
  match db.accounts.find? (fun a => a.id == accId && a.userId == uid) with
  | none => .error ⟨.NOT_FOUND, "Account not found"⟩
  | some account =>
    .ok (((db.transactions.filter (fun t => t.accountId == accId)).reverse).map
      (fun t => (t, account.accountType)))

/-- A sequence of `fundAccount` calls against one account with one funding
source, threading the store. -/
def fundMany (uid accId : ℕ) (src : FundingSource) (amts : List ℚ) (db : Db) : Db :=
  amts.foldl (fun d a => (fundAccount d uid ⟨accId, a, src⟩).2) db

lemma round2_eval (q : ℚ) (n : ℤ) (h1 : (n : ℚ) ≤ q * 100 + 1/2) (h2 : q * 100 + 1/2 < n + 1) :
    round2 q = (n : ℚ) / 100 := by
  unfold round2 jsRound
  rw [Int.floor_eq_iff.mpr ⟨h1, h2⟩]

lemma round2_cents (k : ℤ) : round2 ((k : ℚ) / 100) = (k : ℚ) / 100 := by
  unfold round2 jsRound
  rw [div_mul_cancel₀ _ (by norm_num : (100 : ℚ) ≠ 0), Int.floor_int_add,
    show ⌊(1 : ℚ)/2⌋ = 0 from Int.floor_eq_iff.mpr (by norm_num)]
  norm_num

/-- The transaction row inserted by a successful `fundAccount` call. -/
def newTxnOf (db : Db) (input : FundInput) : Txn :=
  { id := db.nextTxnId, accountId := input.accountId, txType := "deposit"
    amount := round2 input.amount, status := "completed" }

/-- The store after a successful `fundAccount` call. -/
def dbAfterFund (db : Db) (input : FundInput) (newBalance : ℚ) : Db :=
  { db with
      transactions := db.transactions ++ [newTxnOf db input]
      accounts := db.accounts.map (fun a =>
        if a.id == input.accountId then { a with balance := newBalance } else a)
      nextTxnId := db.nextTxnId + 1 }

lemma fund_ok_state (db : Db) (uid : ℕ) (input : FundInput) (acct : Account)
    (h1 : 1/100 ≤ input.amount) (h2 : input.amount ≤ 10000)
    (h3 : input.fundingSource.accountNumber ≠ "")
    (h4 : sourceError input.fundingSource = none)
    (h5 : db.accounts.find? (fun a => a.id == input.accountId && a.userId == uid) = some acct)
    (h6 : acct.status = "active") :
    fundAccount db uid input =
      (.ok (newestTxn (db.transactions ++ [newTxnOf db input]) input.accountId,
            round2 (acct.balance + round2 input.amount)),
        dbAfterFund db input (round2 (acct.balance + round2 input.amount))) := by
  unfold fundAccount
  rw [if_neg (not_lt.mpr h1), if_neg (not_lt.mpr h2), if_neg h3, h4, h5]
  simp [h6, newTxnOf, dbAfterFund]

lemma newest_append (txns : List Txn) (accId : ℕ) (nt : Txn)
    (hacc : nt.accountId = accId) (hfresh : ∀ t ∈ txns, t.id < nt.id) :
    newestTxn (txns ++ [nt]) accId = some nt := by
  unfold newestTxn
  have hmem : nt ∈ (txns ++ [nt]).filter (fun t => t.accountId == accId) :=
    List.mem_filter.mpr ⟨List.mem_append_right _ (List.mem_singleton_self nt), by simp [hacc]⟩
  cases hA : ((txns ++ [nt]).filter (fun t => t.accountId == accId)).argmax Txn.id with
  | none =>
    rw [List.argmax_eq_none] at hA
    rw [hA] at hmem
    exact absurd hmem (List.not_mem_nil nt)
  | some m =>
    have hm : m ∈ ((txns ++ [nt]).filter (fun t => t.accountId == accId)).argmax Txn.id :=
      Option.mem_def.mpr hA
    have hmL := List.argmax_mem hm
    have hle : nt.id ≤ m.id := List.le_of_mem_argmax hmem hm
    rw [List.filter_append] at hmL
    rcases List.mem_append.mp hmL with hmold | hmnew
    · have hmt : m ∈ txns := List.mem_of_mem_filter hmold
      exact absurd hle (by have := hfresh m hmt; omega)
    · have : m = nt := by simpa using (List.mem_filter.mp hmnew).1
      rw [this]

lemma find?_update (l : List Account) (accId uid : ℕ) (nb : ℚ) :
    (l.map (fun a => if a.id == accId then { a with balance := nb } else a)).find?
        (fun a => a.id == accId && a.userId == uid)
      = (l.find? (fun a => a.id == accId && a.userId == uid)).map
        (fun a => if a.id == accId then { a with balance := nb } else a) := by
  rw [List.find?_map]
  have hp : ((fun (a : Account) => a.id == accId && a.userId == uid) ∘ fun (a : Account) =>
      if a.id == accId then { a with balance := nb } else a)
      = (fun (a : Account) => a.id == accId && a.userId == uid) := by
    funext a
    by_cases h : a.id == accId <;> simp [Function.comp, h]
  rw [hp]

lemma sourceError_bad (src : FundingSource)
    (hbad : (src.srcType = .bank ∧ validRouting src.routingNumber = false)
      ∨ (src.srcType = .card ∧ (detectCardType src.accountNumber = none
          ∨ isValidLuhn (strDigits src.accountNumber) = false))) :
    ∃ e, sourceError src = some e ∧ e.code = .BAD_REQUEST := by
  unfold sourceError
  rcases hbad with ⟨ht, hr⟩ | ⟨ht, hcd⟩
  · rw [ht, hr]
    exact ⟨_, rfl, rfl⟩
  · rw [ht]
    cases hd : detectCardType src.accountNumber with
    | none => exact ⟨_, rfl, rfl⟩
    | some ty =>
      rcases hcd with hnone | hluhn
      · rw [hd] at hnone
        exact absurd hnone (by simp)
      · rw [hluhn]
        exact ⟨_, rfl, rfl⟩

/-- **C6.** A `fundAccount` call whose funding source fails validation (bank
source with a missing or non-9-digit routing number, or card source with an
unrecognized network or failing Luhn) raises BAD_REQUEST and leaves the
store untouched; moreover an unrecognized card prefix is rejected with the
network-detection message irrespective of the Luhn check (so before it). -/
theorem C6_validation_before_mutation :
    (∀ (db : Db) (uid : ℕ) (input : FundInput),
      (input.fundingSource.srcType = .bank ∧ validRouting input.fundingSource.routingNumber = false)
        ∨ (input.fundingSource.srcType = .card ∧ (detectCardType input.fundingSource.accountNumber = none
            ∨ isValidLuhn (strDigits input.fundingSource.accountNumber) = false)) →
      (∃ e, (fundAccount db uid input).1 = .error e ∧ e.code = .BAD_REQUEST)
        ∧ (fundAccount db uid input).2 = db)
    ∧ (∀ (db : Db) (uid : ℕ) (input : FundInput),
      1/100 ≤ input.amount → input.amount ≤ 10000 →
      input.fundingSource.accountNumber ≠ "" →
      input.fundingSource.srcType = .card →
      detectCardType input.fundingSource.accountNumber = none →
      (fundAccount db uid input).1
        = .error ⟨.BAD_REQUEST, "Invalid card number. We accept Visa, Mastercard, Amex, and Discover."⟩) := by
  constructor
  · intro db uid input hbad
    obtain ⟨e, he, hc⟩ := sourceError_bad input.fundingSource hbad
    unfold fundAccount
    split_ifs with h1 h2 h3
    · exact ⟨⟨_, rfl, rfl⟩, rfl⟩
    · exact ⟨⟨_, rfl, rfl⟩, rfl⟩
    · exact ⟨⟨_, rfl, rfl⟩, rfl⟩
    · rw [he]
      exact ⟨⟨e, rfl, hc⟩, rfl⟩
  · intro db uid input ha1 ha2 hne ht hd
    have he : sourceError input.fundingSource
        = some ⟨.BAD_REQUEST, "Invalid card number. We accept Visa, Mastercard, Amex, and Discover."⟩ := by
      unfold sourceError
      rw [ht, hd]
    unfold fundAccount
    rw [if_neg (not_lt.mpr ha1), if_neg (not_lt.mpr ha2), if_neg hne, he]

/-- Witness for C6: a bank source with a malformed routing number is
rejected without touching the store, and a card number with an unrecognized
prefix (all nines, which also fails Luhn) draws the network-detection
message. -/
theorem C6_validation_before_mutation_witness :
    ((∃ e, (fundAccount ⟨[], [], [], [], 1⟩ 1 ⟨1, 50, ⟨.bank, "777", some "12345"⟩⟩).1 = .error e
        ∧ e.code = .BAD_REQUEST)
      ∧ (fundAccount ⟨[], [], [], [], 1⟩ 1 ⟨1, 50, ⟨.bank, "777", some "12345"⟩⟩).2 = ⟨[], [], [], [], 1⟩)
    ∧ (fundAccount ⟨[], [], [], [], 1⟩ 1 ⟨1, 50, ⟨.card, "9999999999999999", none⟩⟩).1
      = .error ⟨.BAD_REQUEST, "Invalid card number. We accept Visa, Mastercard, Amex, and Discover."⟩ :=
  ⟨C6_validation_before_mutation.1 ⟨[], [], [], [], 1⟩ 1 ⟨1, 50, ⟨.bank, "777", some "12345"⟩⟩
      (Or.inl ⟨rfl, by decide⟩),
    C6_validation_before_mutation.2 ⟨[], [], [], [], 1⟩ 1 ⟨1, 50, ⟨.card, "9999999999999999", none⟩⟩
      (by norm_num) (by norm_num) (by decide) rfl (by decide)⟩

/-- **C7.** When the account id matches no row owned by the caller — it does
not exist, or belongs to another user — `fundAccount` (with a funding source
that passes validation) and `getTransactions` both fail with NOT_FOUND,
never FORBIDDEN, and `fundAccount` leaves the store untouched. -/
theorem C7_not_found_for_unowned :
    (∀ (db : Db) (uid : ℕ) (input : FundInput),
      1/100 ≤ input.amount → input.amount ≤ 10000 →
      input.fundingSource.accountNumber ≠ "" →
      sourceError input.fundingSource = none →
      (∀ a ∈ db.accounts, ¬(a.id = input.accountId ∧ a.userId = uid)) →
      (fundAccount db uid input).1 = .error ⟨.NOT_FOUND, "Account not found"⟩
        ∧ (fundAccount db uid input).2 = db)
    ∧ (∀ (db : Db) (uid accId : ℕ),
      (∀ a ∈ db.accounts, ¬(a.id = accId ∧ a.userId = uid)) →
      getTransactions db uid accId = .error ⟨.NOT_FOUND, "Account not found"⟩) := by
  constructor
  · intro db uid input ha1 ha2 hne hsrc hown
    have hfind : db.accounts.find? (fun a => a.id == input.accountId && a.userId == uid) = none :=
      List.find?_eq_none.mpr (by intro a ha; simpa using hown a ha)
    unfold fundAccount
    rw [if_neg (not_lt.mpr ha1), if_neg (not_lt.mpr ha2), if_neg hne, hsrc, hfind]
    exact ⟨rfl, rfl⟩
  · intro db uid accId hown
    have hfind : db.accounts.find? (fun a => a.id == accId && a.userId == uid) = none :=
      List.find?_eq_none.mpr (by intro a ha; simpa using hown a ha)
    unfold getTransactions
    rw [hfind]

/-- Witness for C7: account 7 exists but belongs to user 2; caller 1 gets
NOT_FOUND from both operations, and funding mutates nothing. -/
theorem C7_not_found_for_unowned_witness :
    ((fundAccount ⟨[⟨1⟩, ⟨2⟩], [⟨7, 2, "checking", 0, "active"⟩], [], [], 1⟩ 1
        ⟨7, 50, ⟨.bank, "777", some "123456789"⟩⟩).1 = .error ⟨.NOT_FOUND, "Account not found"⟩
      ∧ (fundAccount ⟨[⟨1⟩, ⟨2⟩], [⟨7, 2, "checking", 0, "active"⟩], [], [], 1⟩ 1
        ⟨7, 50, ⟨.bank, "777", some "123456789"⟩⟩).2
        = ⟨[⟨1⟩, ⟨2⟩], [⟨7, 2, "checking", 0, "active"⟩], [], [], 1⟩)
    ∧ getTransactions ⟨[⟨1⟩, ⟨2⟩], [⟨7, 2, "checking", 0, "active"⟩], [], [], 1⟩ 1 7
      = .error ⟨.NOT_FOUND, "Account not found"⟩ :=
  ⟨C7_not_found_for_unowned.1 ⟨[⟨1⟩, ⟨2⟩], [⟨7, 2, "checking", 0, "active"⟩], [], [], 1⟩ 1
      ⟨7, 50, ⟨.bank, "777", some "123456789"⟩⟩
      (by norm_num) (by norm_num) (by decide) (by decide) (by decide),
    C7_not_found_for_unowned.2 ⟨[⟨1⟩, ⟨2⟩], [⟨7, 2, "checking", 0, "active"⟩], [], [], 1⟩ 1 7
      (by decide)⟩

lemma fundMany_balance (uid accId : ℕ) (src : FundingSource)
    (hne : src.accountNumber ≠ "") (hsrc : sourceError src = none) :
    ∀ (amts : List ℚ) (db : Db) (acct : Account),
      (∀ a ∈ amts, 1/100 ≤ a ∧ a ≤ 10000) →
      db.accounts.find? (fun x => x.id == accId && x.userId == uid) = some acct →
      acct.status = "active" →
      (∃ k : ℤ, acct.balance = (k : ℚ) / 100) →
      ∃ acct', (fundMany uid accId src amts db).accounts.find?
          (fun x => x.id == accId && x.userId == uid) = some acct'
        ∧ acct'.status = "active"
        ∧ acct'.balance = acct.balance + (amts.map round2).sum
        ∧ ∃ k : ℤ, acct'.balance = (k : ℚ) / 100 := by
  intro amts
  induction amts with
  | nil =>
    intro db acct _ hfind hact hbal
    exact ⟨acct, hfind, hact, by simp [fundMany], hbal⟩
  | cons a rest ih =>
    intro db acct hamts hfind hact hbal
    obtain ⟨ha1, ha2⟩ := hamts a (List.mem_cons_self a rest)
    obtain ⟨m, hm⟩ := hbal
    have hpa := List.find?_some hfind
    have hid : acct.id = accId := by
      have : acct.id = accId ∧ acct.userId = uid := by simpa using hpa
      exact this.1
    have hstep := fund_ok_state db uid ⟨accId, a, src⟩ acct ha1 ha2 hne hsrc hfind hact
    have hra : round2 a = ((jsRound (a * 100) : ℤ) : ℚ) / 100 := rfl
    have h2 : acct.balance + round2 a = ((m + jsRound (a * 100) : ℤ) : ℚ) / 100 := by
      rw [hm, hra, div_add_div_same, Int.cast_add]
    have hnb : round2 (acct.balance + round2 a) = acct.balance + round2 a := by
      rw [h2]
      exact round2_cents _
    have hfind1 : (dbAfterFund db ⟨accId, a, src⟩ (round2 (acct.balance + round2 a))).accounts.find?
        (fun x => x.id == accId && x.userId == uid)
        = some { acct with balance := acct.balance + round2 a } := by
      show (db.accounts.map _).find? _ = _
      rw [find?_update db.accounts accId uid _, hfind]
      simp [hid, hnb]
    have hfm : fundMany uid accId src (a :: rest) db
        = fundMany uid accId src rest (dbAfterFund db ⟨accId, a, src⟩ (round2 (acct.balance + round2 a))) := by
      unfold fundMany
      rw [List.foldl_cons, hstep]
    obtain ⟨acct', h1, hs', h3, hc⟩ := ih (dbAfterFund db ⟨accId, a, src⟩ (round2 (acct.balance + round2 a)))
      { acct with balance := acct.balance + round2 a }
      (fun x hx => hamts x (List.mem_cons_of_mem a hx)) hfind1 hact ⟨m + jsRound (a * 100), h2⟩
    refine ⟨acct', by rw [hfm]; exact h1, hs', ?_, hc⟩
    rw [h3]
    show acct.balance + round2 a + (rest.map round2).sum
      = acct.balance + ((a :: rest).map round2).sum
    rw [List.map_cons, List.sum_cons]
    ring

lemma map_round2_id (l : List ℚ) (h : ∀ a ∈ l, ∃ k : ℤ, a = (k : ℚ) / 100) :
    l.map round2 = l := by
  induction l with
  | nil => rfl
  | cons a rest ih =>
    obtain ⟨k, hk⟩ := h a (List.mem_cons_self a rest)
    rw [List.map_cons, ih (fun x hx => h x (List.mem_cons_of_mem a hx)), hk, round2_cents]

/-- A sample store used to instantiate theorems with hypotheses: user 1
holds the active account 1 with balance 0. -/
def sampleDb : Db :=
  ⟨[⟨1⟩], [⟨1, 1, "checking", 0, "active"⟩], [], [], 1⟩

/-- A funding source that passes validation: bank transfer with a 9-digit
routing number. -/
def sampleBankSource : FundingSource := ⟨.bank, "777", some "123456789"⟩

/-- **C1 (amended).** For funding amounts between 0.01 and 10000 that are
exact multiples of a cent (expressible with two decimal places, as every
dollars-and-cents amount is), applying them sequentially via `fundAccount`
to an active account owned by the caller starting from balance 0 leaves the
persisted balance exactly `round(sum(ai)*100)/100`, which equals `sum(ai)`:
each call sets the balance to `round((oldBalance + amount)*100)/100` with
the amount itself first rounded to two decimal places.  (For amounts with
more than two decimal places, the per-call rounding makes the final balance
the sum of the rounded amounts, which can differ from rounding the raw sum
— see the counterexample.) -/
theorem C1_balance_exact_for_cent_amounts (uid accId : ℕ) (src : FundingSource)
    (amts : List ℚ) (db : Db) (acct : Account)
    (hne : src.accountNumber ≠ "") (hsrc : sourceError src = none)
    (hamts : ∀ a ∈ amts, 1/100 ≤ a ∧ a ≤ 10000 ∧ ∃ k : ℤ, a = (k : ℚ) / 100)
    (hfind : db.accounts.find? (fun x => x.id == accId && x.userId == uid) = some acct)
    (hact : acct.status = "active") (hzero : acct.balance = 0) :
    ∃ acct', (fundMany uid accId src amts db).accounts.find?
        (fun x => x.id == accId && x.userId == uid) = some acct'
      ∧ acct'.balance = round2 amts.sum ∧ acct'.balance = amts.sum := by
  obtain ⟨acct', h1, _, h3, k, hk⟩ :=
    fundMany_balance uid accId src hne hsrc amts db acct
      (fun a ha => ⟨(hamts a ha).1, (hamts a ha).2.1⟩) hfind hact ⟨0, by rw [hzero]; norm_num⟩
  have hsum : acct'.balance = amts.sum := by
    rw [h3, hzero, zero_add, map_round2_id amts (fun a ha => (hamts a ha).2.2)]
  refine ⟨acct', h1, ?_, hsum⟩
  rw [← hsum, hk]
  exact (round2_cents k).symm

/-- Witness for C1: two deposits of $1.05 into the sample account leave the
balance at exactly $2.10. -/
theorem C1_balance_exact_for_cent_amounts_witness :
    sourceError sampleBankSource = none
    ∧ ∃ acct', (fundMany 1 1 sampleBankSource [21/20, 21/20] sampleDb).accounts.find?
        (fun x => x.id == 1 && x.userId == 1) = some acct'
      ∧ acct'.balance = round2 (([21/20, 21/20] : List ℚ).sum)
      ∧ acct'.balance = ([21/20, 21/20] : List ℚ).sum :=
  ⟨by decide,
    C1_balance_exact_for_cent_amounts 1 1 sampleBankSource [21/20, 21/20] sampleDb
      ⟨1, 1, "checking", 0, "active"⟩
      (by decide) (by decide)
      (by
        intro a ha
        have : a = 21/20 := by
          rcases List.mem_cons.mp ha with h | h
          · exact h
          · simpa using h
        rw [this]
        exact ⟨by norm_num, by norm_num, 105, by norm_num⟩)
      rfl rfl rfl⟩

/-- Counterexample to C1 as stated: funding twice with $0.015 (a legal
amount, between 0.01 and 10000, but not a whole number of cents) leaves the
balance at 0.02 + 0.02 = 0.04, while `round(sum*100)/100 = round(3)/100 =
0.03`: per-call rounding does not commute with rounding the raw sum. -/
theorem C1_counterexample_per_call_rounding :
    (1 : ℚ)/100 ≤ 3/200 ∧ (3 : ℚ)/200 ≤ 10000
    ∧ ∃ acct', (fundMany 1 1 sampleBankSource [3/200, 3/200] sampleDb).accounts.find?
        (fun x => x.id == 1 && x.userId == 1) = some acct'
      ∧ acct'.balance ≠ round2 (([3/200, 3/200] : List ℚ).sum) := by
  refine ⟨by norm_num, by norm_num, ?_⟩
  obtain ⟨acct', h1, _, h3, _⟩ :=
    fundMany_balance 1 1 sampleBankSource (by decide) (by decide) [3/200, 3/200] sampleDb
      ⟨1, 1, "checking", 0, "active"⟩
      (by intro a ha
          have : a = 3/200 := by
            rcases List.mem_cons.mp ha with h | h
            · exact h
            · simpa using h
          rw [this]
          exact ⟨by norm_num, by norm_num⟩)
      rfl rfl ⟨0, by norm_num⟩
  refine ⟨acct', h1, ?_⟩
  have e1 : round2 ((3 : ℚ)/200) = ((2 : ℤ) : ℚ) / 100 :=
    round2_eval _ 2 (by norm_num) (by norm_num)
  have e2 : round2 (([3/200, 3/200] : List ℚ).sum) = ((3 : ℤ) : ℚ) / 100 := by
    have : (([3/200, 3/200] : List ℚ).sum) = 3/100 := by norm_num
    rw [this]
    exact round2_eval _ 3 (by norm_num) (by norm_num)
  rw [h3, e2]
  simp only [List.map_cons, List.map_nil, List.sum_cons, List.sum_nil, e1]
  norm_num

/-- **C8.** A successful `fundAccount` call returns the transaction it just
inserted: across two consecutive calls against the same account (with valid
inputs, an active owned account, and transaction ids below the
auto-increment counter), the second call's returned transaction carries the
second call's rounded amount and an id distinct from the first call's. -/
theorem C8_returns_new_transaction (db : Db) (uid accId : ℕ) (a1 a2 : ℚ)
    (src1 src2 : FundingSource) (acct : Account)
    (h11 : 1/100 ≤ a1) (h12 : a1 ≤ 10000) (h21 : 1/100 ≤ a2) (h22 : a2 ≤ 10000)
    (hne1 : src1.accountNumber ≠ "") (hs1 : sourceError src1 = none)
    (hne2 : src2.accountNumber ≠ "") (hs2 : sourceError src2 = none)
    (hfind : db.accounts.find? (fun x => x.id == accId && x.userId == uid) = some acct)
    (hact : acct.status = "active")
    (hfresh : ∀ t ∈ db.transactions, t.id < db.nextTxnId) :
    ∃ tx1 tx2 b1 b2,
      (fundAccount db uid ⟨accId, a1, src1⟩).1 = .ok (some tx1, b1)
      ∧ (fundAccount ((fundAccount db uid ⟨accId, a1, src1⟩).2) uid ⟨accId, a2, src2⟩).1
        = .ok (some tx2, b2)
      ∧ tx1.amount = round2 a1 ∧ tx2.amount = round2 a2 ∧ tx2.id ≠ tx1.id := by
  have hstep1 := fund_ok_state db uid ⟨accId, a1, src1⟩ acct h11 h12 hne1 hs1 hfind hact
  have hnt1 : newestTxn (db.transactions ++ [newTxnOf db ⟨accId, a1, src1⟩]) accId
      = some (newTxnOf db ⟨accId, a1, src1⟩) :=
    newest_append _ _ _ rfl (fun t ht => hfresh t ht)
  have hid : acct.id = accId ∧ acct.userId = uid := by simpa using List.find?_some hfind
  have hfind1 : (dbAfterFund db ⟨accId, a1, src1⟩ (round2 (acct.balance + round2 a1))).accounts.find?
      (fun x => x.id == accId && x.userId == uid)
      = some { acct with balance := round2 (acct.balance + round2 a1) } := by
    show (db.accounts.map _).find? _ = _
    rw [find?_update db.accounts accId uid _, hfind]
    simp [hid.1]
  have hfresh1 : ∀ t ∈ (dbAfterFund db ⟨accId, a1, src1⟩ (round2 (acct.balance + round2 a1))).transactions,
      t.id < (dbAfterFund db ⟨accId, a1, src1⟩ (round2 (acct.balance + round2 a1))).nextTxnId := by
    intro t ht
    show t.id < db.nextTxnId + 1
    rcases List.mem_append.mp ht with h | h
    · have := hfresh t h
      omega
    · have ht' : t = newTxnOf db ⟨accId, a1, src1⟩ := by simpa using h
      rw [ht']
      show db.nextTxnId < db.nextTxnId + 1
      omega
  have hstep2 := fund_ok_state (dbAfterFund db ⟨accId, a1, src1⟩ (round2 (acct.balance + round2 a1)))
    uid ⟨accId, a2, src2⟩ _ h21 h22 hne2 hs2 hfind1 hact
  have hnt2 := newest_append
    (dbAfterFund db ⟨accId, a1, src1⟩ (round2 (acct.balance + round2 a1))).transactions accId
    (newTxnOf (dbAfterFund db ⟨accId, a1, src1⟩ (round2 (acct.balance + round2 a1))) ⟨accId, a2, src2⟩)
    rfl (fun t ht => hfresh1 t ht)
  refine ⟨newTxnOf db ⟨accId, a1, src1⟩,
    newTxnOf (dbAfterFund db ⟨accId, a1, src1⟩ (round2 (acct.balance + round2 a1))) ⟨accId, a2, src2⟩,
    round2 (acct.balance + round2 a1),
    round2 ((round2 (acct.balance + round2 a1)) + round2 a2), ?_, ?_, rfl, rfl, ?_⟩
  · rw [hstep1]
    show Except.ok (newestTxn (db.transactions ++ [newTxnOf db ⟨accId, a1, src1⟩]) accId,
      round2 (acct.balance + round2 a1)) = _
    rw [hnt1]
  · rw [hstep1]
    show (fundAccount (dbAfterFund db ⟨accId, a1, src1⟩ (round2 (acct.balance + round2 a1)))
      uid ⟨accId, a2, src2⟩).1 = _
    rw [hstep2]
    show Except.ok (newestTxn _ accId, _) = _
    rw [hnt2]
  · show db.nextTxnId + 1 ≠ db.nextTxnId
    omega

/-- Witness for C8: funding the sample account with $50 then $20 returns,
on the second call, the $20 transaction with a fresh id. -/
theorem C8_returns_new_transaction_witness :
    sourceError sampleBankSource = none
    ∧ ∃ tx1 tx2 b1 b2,
      (fundAccount sampleDb 1 ⟨1, 50, sampleBankSource⟩).1 = .ok (some tx1, b1)
      ∧ (fundAccount ((fundAccount sampleDb 1 ⟨1, 50, sampleBankSource⟩).2) 1
          ⟨1, 20, sampleBankSource⟩).1 = .ok (some tx2, b2)
      ∧ tx1.amount = round2 50 ∧ tx2.amount = round2 20 ∧ tx2.id ≠ tx1.id :=
  ⟨by decide,
    C8_returns_new_transaction sampleDb 1 1 50 20 sampleBankSource sampleBankSource
      ⟨1, 1, "checking", 0, "active"⟩
      (by norm_num) (by norm_num) (by norm_num) (by norm_num)
      (by decide) (by decide) (by decide) (by decide)
      rfl rfl (by intro t ht; simp [sampleDb] at ht)⟩

/-- `createContext` (the tRPC context logic): extract the session cookie,
verify the token's signature (`verify` abstracts `jwt.verify`: the decoded
userId on success), look up the session row by token, and resolve the user
only when the remaining lifetime strictly exceeds 60000 ms; the 0-60 s
window and every failure degrade to no identity.  The function performs no
writes, so the store is passed through unchanged. -/
def createContext (db : Db) (cookieToken : Option String) (verify : String → Option ℕ)
    (nowMs : ℤ) : Option User × Db :=
  (match cookieToken with
    | none => none
    | some token =>
      match verify token with
      | none => none
      | some decodedUserId =>
        match db.sessions.find? (fun s => s.token == token) with
        | none => none
        | some session =>
          if 60000 < session.expiresAt - nowMs then
            db.users.find? (fun u => u.id == decodedUserId)
          else none,
   db)

/-- The session step shared by signup (auth.ts lines 136-143) and login
(auth.ts lines 188-195): delete every session row of the user, then insert
the fresh one. -/
def invalidateAndCreateSession (sessions : List Session) (uid : ℕ) (token : String)
    (expiresAt : ℤ) : List Session :=
  (sessions.filter (fun s => !(s.userId == uid))) ++ [⟨uid, token, expiresAt⟩]

/-- Number of session rows belonging to a user. -/
def countUserSessions (sessions : List Session) (uid : ℕ) : ℕ :=
  sessions.countP (fun s => s.userId == uid)

/-- The value returned by `logout`, plus whether the response cleared the
session cookie (`Set-Cookie: session=; ...; Max-Age=0`). -/
structure LogoutResult where
  success : Bool
  message : String
  cookieCleared : Bool
deriving DecidableEq

/-- `logout` (auth.ts lines 206-237): unauthenticated callers get a soft
failure and no cookie change; otherwise the token is read from the cookie
header, the matching session rows are deleted when it is present — with
`deleted` set to `true` whenever a token was found, independent of whether
a row matched — and the cookie is cleared unconditionally. -/
def logout (ctxUser : Option User) (cookieToken : Option String) (db : Db) :
    LogoutResult × Db :=
  match ctxUser with
  | none => (⟨false, "No active session", false⟩, db)
  | some _ =>
    match cookieToken with
    | none => (⟨false, "Failed to invalidate session", true⟩, db)
    | some tok =>
      (⟨true, "Logged out successfully", true⟩,
        { db with sessions := db.sessions.filter (fun s => !(s.token == tok)) })

/-- A full logout request: context resolution on the request's cookie
header, then the `logout` mutation on the resolved context. -/
def handleLogout (db : Db) (cookieToken : Option String) (verify : String → Option ℕ)
    (nowMs : ℤ) : LogoutResult × Db :=
  let ctx := createContext db cookieToken verify nowMs
  logout ctx.1 cookieToken ctx.2

/-- **C3.** For a request with a validly signed token whose session row
exists (and whose user row exists), context resolution authenticates
exactly when the remaining lifetime strictly exceeds 60 seconds; otherwise
the context is unauthenticated and the store — in particular the session
row — is untouched.  A session 30 s from expiry resolves unauthenticated,
one 120 s from expiry resolves authenticated. -/
theorem C3_soft_expiry_margin (db : Db) (tok : String) (verify : String → Option ℕ)
    (now : ℤ) (uid : ℕ) (s : Session) (u : User)
    (hv : verify tok = some uid)
    (hs : db.sessions.find? (fun x => x.token == tok) = some s)
    (hu : db.users.find? (fun x => x.id == uid) = some u) :
    ((createContext db (some tok) verify now).1 = some u ↔ 60000 < s.expiresAt - now)
    ∧ (createContext db (some tok) verify now).2 = db
    ∧ (s.expiresAt - now = 30000 → (createContext db (some tok) verify now).1 = none)
    ∧ (s.expiresAt - now = 120000 → (createContext db (some tok) verify now).1 = some u) := by
  have hred : createContext db (some tok) verify now
      = (if 60000 < s.expiresAt - now then db.users.find? (fun x => x.id == uid) else none, db) := by
    unfold createContext
    simp only [hv, hs]
  rw [hred]
  refine ⟨?_, rfl, ?_, ?_⟩
  · by_cases h : 60000 < s.expiresAt - now
    · simp [h, hu]
    · simp [h]
  · intro h30
    simp [h30]
  · intro h120
    simp [h120, hu]

/-- Witness for C3: a store with one session for user 1; with the session
120 s from expiry the context authenticates, and the store is unchanged. -/
theorem C3_soft_expiry_margin_witness :
    ((createContext ⟨[⟨1⟩], [], [], [⟨1, "tok", 120000⟩], 1⟩ (some "tok")
        (fun t => if t == "tok" then some 1 else none) 0).1 = some ⟨1⟩
      ↔ (60000 : ℤ) < 120000 - 0)
    ∧ (createContext ⟨[⟨1⟩], [], [], [⟨1, "tok", 120000⟩], 1⟩ (some "tok")
        (fun t => if t == "tok" then some 1 else none) 0).2
      = ⟨[⟨1⟩], [], [], [⟨1, "tok", 120000⟩], 1⟩
    ∧ ((120000 : ℤ) - 0 = 30000 →
      (createContext ⟨[⟨1⟩], [], [], [⟨1, "tok", 120000⟩], 1⟩ (some "tok")
        (fun t => if t == "tok" then some 1 else none) 0).1 = none)
    ∧ ((120000 : ℤ) - 0 = 120000 →
      (createContext ⟨[⟨1⟩], [], [], [⟨1, "tok", 120000⟩], 1⟩ (some "tok")
        (fun t => if t == "tok" then some 1 else none) 0).1 = some ⟨1⟩) :=
  C3_soft_expiry_margin ⟨[⟨1⟩], [], [], [⟨1, "tok", 120000⟩], 1⟩ "tok"
    (fun t => if t == "tok" then some 1 else none) 0 1 ⟨1, "tok", 120000⟩ ⟨1⟩
    rfl rfl rfl

/-- **C4.** Signup and login both delete every session row of the user
before inserting the fresh one, so the at-most-one-session-per-user
invariant is preserved by session creation (and the created user ends with
exactly one row); logout's deletion can only shrink the counts; and any
prior session of the user — in particular the one holding the first
login's token — is gone after a second session is created. -/
theorem C4_single_session_invariant :
    (∀ (S : List Session) (uid : ℕ) (tok : String) (e : ℤ) (v : ℕ),
        countUserSessions S v ≤ 1 →
        countUserSessions (invalidateAndCreateSession S uid tok e) v ≤ 1)
    ∧ (∀ (S : List Session) (uid : ℕ) (tok : String) (e : ℤ),
        countUserSessions (invalidateAndCreateSession S uid tok e) uid = 1)
    ∧ (∀ (S : List Session) (t : String) (v : ℕ),
        countUserSessions S v ≤ 1 →
        countUserSessions (S.filter (fun s => !(s.token == t))) v ≤ 1)
    ∧ (∀ (S : List Session) (uid : ℕ) (tok : String) (e : ℤ) (s : Session),
        s ∈ S → s.userId = uid → s.token ≠ tok →
        s ∉ invalidateAndCreateSession S uid tok e) := by
  have hzero : ∀ (S : List Session) (uid : ℕ),
      S.countP (fun s => (s.userId == uid) && !(s.userId == uid)) = 0 := by
    intro S uid
    rw [List.countP_eq_zero]
    intro a _
    simp
  refine ⟨?_, ?_, ?_, ?_⟩
  · intro S uid tok e v h
    unfold countUserSessions invalidateAndCreateSession
    rw [List.countP_append, List.countP_filter]
    by_cases hv : v = uid
    · subst hv
      rw [hzero]
      simp [List.countP_cons]
    · have hle : S.countP (fun s => (s.userId == v) && !(s.userId == uid))
          ≤ S.countP (fun s => s.userId == v) := by
        apply List.countP_mono_left
        intro a _ hpa
        exact (Bool.and_eq_true_iff.mp hpa).1
      have hnew : List.countP (fun s => s.userId == v) [(⟨uid, tok, e⟩ : Session)] = 0 := by
        simp [List.countP_cons, Ne.symm hv]
      unfold countUserSessions at h
      omega
  · intro S uid tok e
    unfold countUserSessions invalidateAndCreateSession
    rw [List.countP_append, List.countP_filter, hzero]
    simp [List.countP_cons]
  · intro S t v h
    unfold countUserSessions at h ⊢
    rw [List.countP_filter]
    calc S.countP (fun s => (s.userId == v) && !(s.token == t))
        ≤ S.countP (fun s => s.userId == v) := by
          apply List.countP_mono_left
          intro a _ hpa
          exact (Bool.and_eq_true_iff.mp hpa).1
      _ ≤ 1 := h
  · intro S uid tok e s _ huid htok hmem
    unfold invalidateAndCreateSession at hmem
    rcases List.mem_append.mp hmem with hin | hnew
    · have := (List.mem_filter.mp hin).2
      simp [huid] at this
    · have hs : s = ⟨uid, tok, e⟩ := List.mem_singleton.mp hnew
      exact htok (by rw [hs])

/-- Witness for C4: a store holding one session for user 1; creating a new
session for user 1 with a different token leaves exactly one row for user
1, the old row is gone, and logout-deletion keeps the count at most 1. -/
theorem C4_single_session_invariant_witness :
    countUserSessions [(⟨1, "a", 0⟩ : Session)] 1 ≤ 1
    ∧ countUserSessions (invalidateAndCreateSession [⟨1, "a", 0⟩] 1 "b" 99) 1 ≤ 1
    ∧ countUserSessions (invalidateAndCreateSession [⟨1, "a", 0⟩] 1 "b" 99) 1 = 1
    ∧ countUserSessions (([(⟨1, "a", 0⟩ : Session)]).filter (fun s => !(s.token == "b"))) 1 ≤ 1
    ∧ (⟨1, "a", 0⟩ : Session) ∉ invalidateAndCreateSession [⟨1, "a", 0⟩] 1 "b" 99 :=
  ⟨by decide,
    C4_single_session_invariant.1 [⟨1, "a", 0⟩] 1 "b" 99 1 (by decide),
    C4_single_session_invariant.2.1 [⟨1, "a", 0⟩] 1 "b" 99,
    C4_single_session_invariant.2.2.1 [⟨1, "a", 0⟩] "b" 1 (by decide),
    C4_single_session_invariant.2.2.2 [⟨1, "a", 0⟩] 1 "b" 99 ⟨1, "a", 0⟩
      (by decide) rfl (by decide)⟩

/-- **C5.** Across all logout requests (the cookie token resolved through
`createContext`, then the `logout` mutation), the reported success is
`true` exactly when a session row matching the request's cookie token
existed in the store and was deleted by the call; in every other case —
no cookie, bad signature, no matching row, or a row inside the 60 s expiry
margin — it reports failure and deletes nothing. -/
theorem C5_logout_success_iff_deleted (db : Db) (cookieToken : Option String)
    (verify : String → Option ℕ) (now : ℤ) :
    (handleLogout db cookieToken verify now).1.success = true
      ↔ ∃ s ∈ db.sessions, cookieToken = some s.token
          ∧ s ∉ (handleLogout db cookieToken verify now).2.sessions := by
  cases hct : cookieToken with
  | none =>
    have hred : handleLogout db none verify now = (⟨false, "No active session", false⟩, db) := rfl
    rw [hred]
    constructor
    · intro h
      simp at h
    · rintro ⟨s, hs, hsome, -⟩
      cases hsome
  | some tok =>
    cases hv : verify tok with
    | none =>
      have hred : handleLogout db (some tok) verify now
          = (⟨false, "No active session", false⟩, db) := by
        unfold handleLogout createContext logout
        simp only [hv]
      rw [hred]
      constructor
      · intro h
        simp at h
      · rintro ⟨s, hs, -, hnot⟩
        exact absurd hs hnot
    | some uid =>
      cases hf : db.sessions.find? (fun s => s.token == tok) with
      | none =>
        have hred : handleLogout db (some tok) verify now
            = (⟨false, "No active session", false⟩, db) := by
          unfold handleLogout createContext logout
          simp only [hv, hf]
        rw [hred]
        constructor
        · intro h
          simp at h
        · rintro ⟨s, hs, -, hnot⟩
          exact absurd hs hnot
      | some s0 =>
        have hteq : s0.token = tok := by simpa using List.find?_some hf
        by_cases hexp : 60000 < s0.expiresAt - now
        · cases hu : db.users.find? (fun u => u.id == uid) with
          | none =>
            have hred : handleLogout db (some tok) verify now
                = (⟨false, "No active session", false⟩, db) := by
              unfold handleLogout createContext logout
              simp only [hv, hf, if_pos hexp, hu]
            rw [hred]
            constructor
            · intro h
              simp at h
            · rintro ⟨s, hs, -, hnot⟩
              exact absurd hs hnot
          | some u =>
            have hred : handleLogout db (some tok) verify now
                = (⟨true, "Logged out successfully", true⟩,
                  { db with sessions := db.sessions.filter (fun s => !(s.token == tok)) }) := by
              unfold handleLogout createContext logout
              simp only [hv, hf, if_pos hexp, hu]
            rw [hred]
            constructor
            · intro _
              refine ⟨s0, List.mem_of_find?_eq_some hf, by rw [hteq], ?_⟩
              intro hmem
              have hkeep := (List.mem_filter.mp hmem).2
              simp [hteq] at hkeep
            · intro _
              rfl
        · have hred : handleLogout db (some tok) verify now
              = (⟨false, "No active session", false⟩, db) := by
            unfold handleLogout createContext logout
            simp only [hv, hf, if_neg hexp]
          rw [hred]
          constructor
          · intro h
            simp at h
          · rintro ⟨s, hs, -, hnot⟩
            exact absurd hs hnot

/-- **C10.** Whenever the caller was authenticated, `logout` clears the
session cookie (empty value, immediate expiry) unconditionally: on the
successful path, and also on the negative path where no token was found in
the cookie header (where it still reports failure).  Only the
unauthenticated early return leaves the cookie alone. -/
theorem C10_logout_always_clears_cookie :
    (∀ (u : User) (cookieToken : Option String) (db : Db),
        (logout (some u) cookieToken db).1.cookieCleared = true)
    ∧ (∀ (u : User) (db : Db), (logout (some u) none db).1.success = false) := by
  constructor
  · intro u ct db
    cases ct <;> rfl
  · intro u db
    rfl
